import Mathlib

/-!
# Verification of the IBAN validation core

Shallow embedding of the pure functions in `src/utils/ibanUtils.ts`
(`validateIban`, `getCountryFromIban`, `getValidationMessage`,
`extractBankAccountInfo`, and the normalization step shared with
`formatIban`), together with proofs of the specified properties.

Modelling conventions:
* JavaScript strings are modelled as Lean `String` (a list of Unicode
  scalar values), so lengths count scalar values; this agrees with the
  UTF-16 code-unit count of JavaScript on the basic multilingual plane,
  which contains every character the algorithms treat specially.
* The regular expressions of the source are finite character-class
  checks and are expanded into explicit predicates on the code points.
* `BigInt(str)` can throw on a non-numeral string, so it is modelled as
  an `Option Nat`; `none` stands for the thrown exception, and functions
  that (transitively) call it return `Option` results.  Totality of the
  core is then the statement that `none` is never produced.
* `toUpperCase` is modelled per character by `jsUpperChar`: the
  unconditional multi-character expansions of Unicode default case
  conversion (the table `specialUpper`, e.g. ß → SS), and the ASCII
  single-character mapping `Char.toUpper` otherwise.  Single-character
  non-ASCII mappings (e.g. ä → Ä) are modelled as the identity: both
  validation paths apply the same mapping to the same cleaned string, so
  a one-to-one mapping cannot make the paths diverge; only the
  length-changing mappings can, because the message path measures length
  before uppercasing and the boolean path after, and those mappings are
  in the table exhaustively.
-/

namespace Iban

/-- Code points matched by the JavaScript regular-expression class `\s`
(whitespace), used by `replace(/\s/g, '')` and by `trim()`. -/
def wsCodes : List Nat :=
  [9, 10, 11, 12, 13, 32, 160, 5760,
   8192, 8193, 8194, 8195, 8196, 8197, 8198, 8199, 8200, 8201, 8202,
   8232, 8233, 8239, 8287, 12288, 65279]

/-- Whether a character is JavaScript whitespace (`\s`). -/
def jsWhitespace (c : Char) : Bool := wsCodes.contains c.toNat

/-- `iban.replace(/\s/g, '')`: remove every whitespace character. -/
def stripWS (s : String) : String := ⟨s.data.filter (fun c => !jsWhitespace c)⟩

/-- The unconditional multi-character uppercase mappings of Unicode
default case conversion (SpecialCasing), as applied by JavaScript
toUpperCase: the code points whose uppercase is not a single
character, with their uppercase expansions. -/
def specialUpper : List (Char × List Char) :=
  [('\u00DF', ['\u0053', '\u0053']), ('\u0149', ['\u02BC', '\u004E']),
   ('\u01F0', ['\u004A', '\u030C']), ('\u0390', ['\u0399', '\u0308', '\u0301']),
   ('\u03B0', ['\u03A5', '\u0308', '\u0301']), ('\u0587', ['\u0535', '\u0552']),
   ('\u1E96', ['\u0048', '\u0331']), ('\u1E97', ['\u0054', '\u0308']),
   ('\u1E98', ['\u0057', '\u030A']), ('\u1E99', ['\u0059', '\u030A']),
   ('\u1E9A', ['\u0041', '\u02BE']), ('\u1F50', ['\u03A5', '\u0313']),
   ('\u1F52', ['\u03A5', '\u0313', '\u0300']), ('\u1F54', ['\u03A5', '\u0313', '\u0301']),
   ('\u1F56', ['\u03A5', '\u0313', '\u0342']), ('\u1F80', ['\u1F08', '\u0399']),
   ('\u1F81', ['\u1F09', '\u0399']), ('\u1F82', ['\u1F0A', '\u0399']),
   ('\u1F83', ['\u1F0B', '\u0399']), ('\u1F84', ['\u1F0C', '\u0399']),
   ('\u1F85', ['\u1F0D', '\u0399']), ('\u1F86', ['\u1F0E', '\u0399']),
   ('\u1F87', ['\u1F0F', '\u0399']), ('\u1F88', ['\u1F08', '\u0399']),
   ('\u1F89', ['\u1F09', '\u0399']), ('\u1F8A', ['\u1F0A', '\u0399']),
   ('\u1F8B', ['\u1F0B', '\u0399']), ('\u1F8C', ['\u1F0C', '\u0399']),
   ('\u1F8D', ['\u1F0D', '\u0399']), ('\u1F8E', ['\u1F0E', '\u0399']),
   ('\u1F8F', ['\u1F0F', '\u0399']), ('\u1F90', ['\u1F28', '\u0399']),
   ('\u1F91', ['\u1F29', '\u0399']), ('\u1F92', ['\u1F2A', '\u0399']),
   ('\u1F93', ['\u1F2B', '\u0399']), ('\u1F94', ['\u1F2C', '\u0399']),
   ('\u1F95', ['\u1F2D', '\u0399']), ('\u1F96', ['\u1F2E', '\u0399']),
   ('\u1F97', ['\u1F2F', '\u0399']), ('\u1F98', ['\u1F28', '\u0399']),
   ('\u1F99', ['\u1F29', '\u0399']), ('\u1F9A', ['\u1F2A', '\u0399']),
   ('\u1F9B', ['\u1F2B', '\u0399']), ('\u1F9C', ['\u1F2C', '\u0399']),
   ('\u1F9D', ['\u1F2D', '\u0399']), ('\u1F9E', ['\u1F2E', '\u0399']),
   ('\u1F9F', ['\u1F2F', '\u0399']), ('\u1FA0', ['\u1F68', '\u0399']),
   ('\u1FA1', ['\u1F69', '\u0399']), ('\u1FA2', ['\u1F6A', '\u0399']),
   ('\u1FA3', ['\u1F6B', '\u0399']), ('\u1FA4', ['\u1F6C', '\u0399']),
   ('\u1FA5', ['\u1F6D', '\u0399']), ('\u1FA6', ['\u1F6E', '\u0399']),
   ('\u1FA7', ['\u1F6F', '\u0399']), ('\u1FA8', ['\u1F68', '\u0399']),
   ('\u1FA9', ['\u1F69', '\u0399']), ('\u1FAA', ['\u1F6A', '\u0399']),
   ('\u1FAB', ['\u1F6B', '\u0399']), ('\u1FAC', ['\u1F6C', '\u0399']),
   ('\u1FAD', ['\u1F6D', '\u0399']), ('\u1FAE', ['\u1F6E', '\u0399']),
   ('\u1FAF', ['\u1F6F', '\u0399']), ('\u1FB2', ['\u1FBA', '\u0399']),
   ('\u1FB3', ['\u0391', '\u0399']), ('\u1FB4', ['\u0386', '\u0399']),
   ('\u1FB6', ['\u0391', '\u0342']), ('\u1FB7', ['\u0391', '\u0342', '\u0399']),
   ('\u1FBC', ['\u0391', '\u0399']), ('\u1FC2', ['\u1FCA', '\u0399']),
   ('\u1FC3', ['\u0397', '\u0399']), ('\u1FC4', ['\u0389', '\u0399']),
   ('\u1FC6', ['\u0397', '\u0342']), ('\u1FC7', ['\u0397', '\u0342', '\u0399']),
   ('\u1FCC', ['\u0397', '\u0399']), ('\u1FD2', ['\u0399', '\u0308', '\u0300']),
   ('\u1FD3', ['\u0399', '\u0308', '\u0301']), ('\u1FD6', ['\u0399', '\u0342']),
   ('\u1FD7', ['\u0399', '\u0308', '\u0342']), ('\u1FE2', ['\u03A5', '\u0308', '\u0300']),
   ('\u1FE3', ['\u03A5', '\u0308', '\u0301']), ('\u1FE4', ['\u03A1', '\u0313']),
   ('\u1FE6', ['\u03A5', '\u0342']), ('\u1FE7', ['\u03A5', '\u0308', '\u0342']),
   ('\u1FF2', ['\u1FFA', '\u0399']), ('\u1FF3', ['\u03A9', '\u0399']),
   ('\u1FF4', ['\u038F', '\u0399']), ('\u1FF6', ['\u03A9', '\u0342']),
   ('\u1FF7', ['\u03A9', '\u0342', '\u0399']), ('\u1FFC', ['\u03A9', '\u0399']),
   ('\uFB00', ['\u0046', '\u0046']), ('\uFB01', ['\u0046', '\u0049']),
   ('\uFB02', ['\u0046', '\u004C']), ('\uFB03', ['\u0046', '\u0046', '\u0049']),
   ('\uFB04', ['\u0046', '\u0046', '\u004C']), ('\uFB05', ['\u0053', '\u0054']),
   ('\uFB06', ['\u0053', '\u0054']), ('\uFB13', ['\u0544', '\u0546']),
   ('\uFB14', ['\u0544', '\u0535']), ('\uFB15', ['\u0544', '\u053B']),
   ('\uFB16', ['\u054E', '\u0546']), ('\uFB17', ['\u0544', '\u053D'])]

/-- Association-list lookup for the special-casing table. -/
def assocUpper : List (Char × List Char) → Char → Option (List Char)
  | [], _ => none
  | (k, u) :: es, c => if c = k then some u else assocUpper es c

/-- One character of `toUpperCase`: its multi-character expansion when
the character has one, otherwise its single-character uppercase
(`Char.toUpper` on the ASCII range, identity elsewhere). -/
def jsUpperChar (c : Char) : List Char :=
  match assocUpper specialUpper c with
  | some u => u
  | none => [c.toUpper]

/-- `iban.replace(/\s/g, '').toUpperCase()`: the cleaning step shared by
`validateIban` and `extractBankAccountInfo`. -/
def cleanIban (s : String) : String :=
  ⟨((s.data.filter (fun c => !jsWhitespace c)).map jsUpperChar).flatten⟩

/-- `str.trim()`: drop leading and trailing whitespace. -/
def jsTrim (s : String) : String :=
  ⟨((s.data.dropWhile jsWhitespace).reverse.dropWhile jsWhitespace).reverse⟩

/-- `str.toUpperCase()`. -/
def upperStr (s : String) : String := ⟨(s.data.map jsUpperChar).flatten⟩

/-- First `n` characters (`str.slice(0, n)`). -/
def strTake (s : String) (n : Nat) : String := ⟨s.data.take n⟩

/-- Characters from index `n` on (`str.slice(n)`). -/
def strDrop (s : String) (n : Nat) : String := ⟨s.data.drop n⟩

/-- `str.slice(a, b)` for `0 ≤ a ≤ b`. -/
def jsSlice (s : String) (a b : Nat) : String := ⟨(s.data.drop a).take (b - a)⟩

/-- The regular-expression class `[A-Z]` (also the test
`code >= 65 && code <= 90` of the source). -/
def isUpperCode (c : Char) : Bool := decide (65 ≤ c.toNat ∧ c.toNat ≤ 90)

/-- The regular-expression class `[0-9]`. -/
def isDigitCode (c : Char) : Bool := decide (48 ≤ c.toNat ∧ c.toNat ≤ 57)

/-- The regular-expression class `[0-9A-Z]`. -/
def isAlnumCode (c : Char) : Bool := isUpperCode c || isDigitCode c

/-- The test `/^[A-Z]{2}[0-9A-Z]{2,}$/.test(s)`: two capital letters
followed by at least two characters from `[0-9A-Z]`, nothing else. -/
def matchesIbanFormat (s : String) : Bool :=
  match s.data with
  | c1 :: c2 :: rest =>
      isUpperCode c1 && isUpperCode c2 && decide (2 ≤ rest.length) && rest.all isAlnumCode
  | _ => false

/-- The test `/^[A-Z]{2}/.test(s)`: the string starts with two capital
letters. -/
def startsTwoUpper (s : String) : Bool :=
  match s.data with
  | c1 :: c2 :: _ => isUpperCode c1 && isUpperCode c2
  | _ => false

/-- One character of the alphanumeric-to-numeric expansion:
`(code >= 65 && code <= 90) ? (code - 55).toString() : char`. -/
def charExpand (c : Char) : List Char :=
  if 65 ≤ c.toNat ∧ c.toNat ≤ 90 then (Nat.repr (c.toNat - 55)).data else [c]

/-- The full expansion of the rearranged string into a decimal numeral
(the `split('').map(...).join('')` of the source). -/
def expandList (l : List Char) : List Char := (l.map charExpand).flatten

/-- `BigInt(str)` restricted to the shape reached here: succeeds exactly
when every character is a decimal digit (JavaScript would throw a
`SyntaxError` otherwise, modelled by `none`; `BigInt('')` is `0`). -/
def jsBigInt (numeral : List Char) : Option Nat :=
  if numeral.all isDigitCode then
    some (numeral.foldl (fun a c => 10 * a + (c.toNat - 48)) 0)
  else none

/-- Body of `validateIban` after the emptiness test, as a function of
the cleaned string. -/
def validateCore (cleaned : String) : Option Bool :=
  if !matchesIbanFormat cleaned then some false
  else if cleaned.length < 15 ∨ 34 < cleaned.length then some false
  else
    let rearranged := cleaned.data.drop 4 ++ cleaned.data.take 4
    let numeric := expandList rearranged
    (jsBigInt numeric).map (fun n => n % 97 == 1)

/-- `validateIban` from the source: falsy-input test, clean, format
check, length check, rearrange, expand, exact MOD-97 test. -/
def validateIban (iban : String) : Option Bool :=
  if iban = "" then some false
  else validateCore (cleanIban iban)

/-- `getCountryFromIban`: empty for inputs of fewer than two characters,
otherwise the first two characters of the trimmed uppercased input. -/
def getCountryFromIban (iban : String) : String :=
  if iban = "" ∨ iban.length < 2 then ""
  else strTake (upperStr (jsTrim iban)) 2

/-- Body of `getValidationMessage` after the emptiness test, as a
function of the whitespace-stripped (not uppercased) string. -/
def messageCore (cleaned : String) : Option (Bool × String) :=
  if cleaned.length < 15 then some (false, "IBAN is too short")
  else if 34 < cleaned.length then some (false, "IBAN is too long")
  else if !startsTwoUpper (upperStr cleaned) then
    some (false, "IBAN must start with a country code (2 letters)")
  else
    (validateIban cleaned).map fun ok =>
      if ok then (true, "Valid IBAN") else (false, "Invalid IBAN.")

/-- `getValidationMessage` from the source. -/
def getValidationMessage (iban : String) : Option (Bool × String) :=
  if iban = "" then some (false, "Please enter an IBAN")
  else messageCore (stripWS iban)

/-- The record returned by `extractBankAccountInfo`. -/
structure BankAccountInfo where
  isValid : Bool
  countryCode : String
  bankCode : String
  branchCode : String
  accountNumber : String
  message : String
deriving DecidableEq, Repr

/-- `extractBankAccountInfo` from the source: clean, take the country
code, validate, then slice by the country-specific layout (`DE`, `FR`,
`GB`) or the generic fallback. -/
def extractBankAccountInfo (iban : String) : Option BankAccountInfo :=
  let cleaned := cleanIban iban
  let countryCode := getCountryFromIban cleaned
  match validateIban cleaned with
  | none => none
  | some false =>
      some ⟨false, countryCode, "", "", "",
            "Invalid IBAN. Cannot extract account information."⟩
  | some true =>
      let fields : String × String × String :=
        if countryCode = "DE" then
          if cleaned.length = 22 then
            (jsSlice cleaned 4 12, "", jsSlice cleaned 12 22)
          else ("", "", "")
        else if countryCode = "FR" then
          if cleaned.length = 27 then
            (jsSlice cleaned 4 9, jsSlice cleaned 9 14, jsSlice cleaned 14 25)
          else ("", "", "")
        else if countryCode = "GB" then
          if cleaned.length = 22 then
            (jsSlice cleaned 4 8, jsSlice cleaned 8 14, jsSlice cleaned 14 22)
          else ("", "", "")
        else
          if 15 ≤ cleaned.length then
            (jsSlice cleaned 4 8, "", strDrop cleaned 8)
          else ("", "", "")
      some ⟨true, countryCode, fields.1, fields.2.1, fields.2.2,
            if fields.1 ≠ "" then "Successfully extracted bank account information"
            else "Partial information extracted due to unknown country format"⟩

/-- The regular-expression class `[a-zA-Z0-9]` used by the normalization
step (`replace(/[^a-zA-Z0-9]/g, '')` in `formatIban`, §4.1 of the spec). -/
def isAsciiAlnum (c : Char) : Bool :=
  decide ((97 ≤ c.toNat ∧ c.toNat ≤ 122) ∨ (65 ≤ c.toNat ∧ c.toNat ≤ 90) ∨
          (48 ≤ c.toNat ∧ c.toNat ≤ 57))

/-- The Normalizer: remove every character outside `[a-zA-Z0-9]`, then
uppercase. -/
def normalize (s : String) : String :=
  ⟨((s.data.filter isAsciiAlnum).map jsUpperChar).flatten⟩

/-! ## Character-level lemmas -/

theorem toUpper_def (c : Char) :
    c.toUpper = if c.toNat ≥ 97 ∧ c.toNat ≤ 122 then Char.ofNat (c.toNat - 32) else c := rfl

theorem toNat_ofNat_valid (n : Nat) (h : n.isValidChar) : (Char.ofNat n).toNat = n := by
  rw [Char.ofNat, dif_pos h]
  rfl

theorem toUpper_toNat (c : Char) :
    c.toUpper.toNat = if c.toNat ≥ 97 ∧ c.toNat ≤ 122 then c.toNat - 32 else c.toNat := by
  rw [toUpper_def]
  split
  · next h => exact toNat_ofNat_valid _ (Or.inl (by omega))
  · rfl

/-- No code point in the Latin alphanumeric range is JavaScript whitespace. -/
theorem ws_contains_false : ∀ m, m < 123 → 48 ≤ m → wsCodes.contains m = false := by decide

theorem jsWhitespace_toUpper (c : Char) : jsWhitespace c.toUpper = jsWhitespace c := by
  unfold jsWhitespace
  rw [toUpper_toNat]
  split
  · next h =>
      rw [ws_contains_false _ (by omega) (by omega), ws_contains_false _ (by omega) (by omega)]
  · rfl

theorem toUpper_toUpper (c : Char) : c.toUpper.toUpper = c.toUpper := by
  by_cases h : c.toNat ≥ 97 ∧ c.toNat ≤ 122
  · have h2 : c.toUpper.toNat = c.toNat - 32 := by rw [toUpper_toNat, if_pos h]
    rw [toUpper_def c.toUpper, if_neg (by omega)]
  · have h2 : c.toUpper = c := by rw [toUpper_def, if_neg h]
    rw [h2, h2]

theorem toUpper_of_alnum (c : Char) (h : isAlnumCode c = true) : c.toUpper = c := by
  simp only [isAlnumCode, isUpperCode, isDigitCode, Bool.or_eq_true, decide_eq_true_eq] at h
  rw [toUpper_def, if_neg (by omega)]

theorem not_ws_of_alnum (c : Char) (h : isAlnumCode c = true) : jsWhitespace c = false := by
  simp only [isAlnumCode, isUpperCode, isDigitCode, Bool.or_eq_true, decide_eq_true_eq] at h
  exact ws_contains_false _ (by omega) (by omega)

/-- Decimal representations of the letter values 10–35 consist of digits. -/
theorem repr_all_digits : ∀ n, n < 36 → ((Nat.repr n).data.all isDigitCode) = true := by decide

theorem charExpand_all_digits (c : Char) (h : isAlnumCode c = true) :
    (charExpand c).all isDigitCode = true := by
  simp only [isAlnumCode, isUpperCode, isDigitCode, Bool.or_eq_true, decide_eq_true_eq] at h
  rcases h with h | h
  · rw [charExpand, if_pos (by omega)]
    exact repr_all_digits _ (by omega)
  · rw [charExpand, if_neg (by omega)]
    simp only [List.all_cons, List.all_nil, Bool.and_true, isDigitCode, decide_eq_true_eq]
    omega

theorem assocUpper_mem {l : List (Char × List Char)} {c : Char} {u : List Char}
    (h : assocUpper l c = some u) : (c, u) ∈ l := by
  induction l with
  | nil => exact absurd h (by simp [assocUpper])
  | cons p t ih =>
      obtain ⟨k, v⟩ := p
      rw [assocUpper] at h
      split at h
      · next heq =>
          cases h
          subst heq
          exact List.mem_cons_self _ _
      · exact List.mem_cons_of_mem _ (ih h)

set_option maxRecDepth 100000 in
/-- Facts about the special-casing table, checked entrywise: keys are
non-ASCII; expansions are non-empty and consist of characters that are
not whitespace, not lowercase ASCII, and not themselves keys. -/
theorem specialUpper_facts : specialUpper.all (fun p =>
    decide (127 < p.1.toNat) && !p.2.isEmpty && p.2.all (fun d =>
      !jsWhitespace d && !decide (97 ≤ d.toNat ∧ d.toNat ≤ 122) &&
      (assocUpper specialUpper d).isNone)) = true := by decide

set_option maxRecDepth 100000 in
/-- ASCII characters have no multi-character uppercase expansion. -/
theorem assoc_ascii : ∀ n, n < 128 → assocUpper specialUpper (Char.ofNat n) = none := by decide

theorem assocUpper_eq_none_of_ascii (c : Char) (h : c.toNat < 128) :
    assocUpper specialUpper c = none := by
  have := assoc_ascii c.toNat h
  rwa [Char.ofNat_toNat] at this

theorem specialUpper_out {c : Char} {u : List Char} (h : assocUpper specialUpper c = some u) :
    u ≠ [] ∧ ∀ d ∈ u, jsWhitespace d = false ∧ ¬(97 ≤ d.toNat ∧ d.toNat ≤ 122)
      ∧ assocUpper specialUpper d = none := by
  have hf := specialUpper_facts
  simp only [List.all_eq_true, Bool.and_eq_true, decide_eq_true_eq, Bool.not_eq_true',
    Option.isNone_iff_eq_none] at hf
  obtain ⟨⟨-, hne⟩, hout⟩ := hf _ (assocUpper_mem h)
  refine ⟨fun huu => by simp [huu] at hne, fun d hd => ?_⟩
  obtain ⟨⟨hws, hlz⟩, hnone⟩ := hout d hd
  exact ⟨hws, of_decide_eq_false hlz, hnone⟩


theorem jsUpperChar_of_none {c : Char} (h : assocUpper specialUpper c = none) :
    jsUpperChar c = [c.toUpper] := by
  unfold jsUpperChar
  rw [h]

theorem jsUpperChar_of_some {c : Char} {u : List Char} (h : assocUpper specialUpper c = some u) :
    jsUpperChar c = u := by
  unfold jsUpperChar
  rw [h]

theorem jsUpperChar_ne_nil (c : Char) : jsUpperChar c ≠ [] := by
  cases ha : assocUpper specialUpper c with
  | none => rw [jsUpperChar_of_none ha]; simp
  | some u => rw [jsUpperChar_of_some ha]; exact (specialUpper_out ha).1

theorem not_ws_jsUpperChar (c : Char) (h : jsWhitespace c = false) :
    ∀ d ∈ jsUpperChar c, jsWhitespace d = false := by
  intro d hd
  cases ha : assocUpper specialUpper c with
  | none =>
      rw [jsUpperChar_of_none ha] at hd
      simp only [List.mem_singleton] at hd
      subst hd
      rw [jsWhitespace_toUpper]
      exact h
  | some u =>
      rw [jsUpperChar_of_some ha] at hd
      exact ((specialUpper_out ha).2 d hd).1

theorem jsUpperChar_idem (c : Char) : ∀ d ∈ jsUpperChar c, jsUpperChar d = [d] := by
  intro d hd
  cases ha : assocUpper specialUpper c with
  | some u =>
      rw [jsUpperChar_of_some ha] at hd
      obtain ⟨-, hlz, hnone⟩ := (specialUpper_out ha).2 d hd
      rw [jsUpperChar_of_none hnone, toUpper_def, if_neg (by omega)]
  | none =>
      rw [jsUpperChar_of_none ha] at hd
      simp only [List.mem_singleton] at hd
      subst hd
      by_cases hlow : 97 ≤ c.toNat ∧ c.toNat ≤ 122
      · have ht : c.toUpper.toNat = c.toNat - 32 := by rw [toUpper_toNat, if_pos hlow]
        rw [jsUpperChar_of_none (assocUpper_eq_none_of_ascii _ (by omega)), toUpper_toUpper]
      · have hfix : c.toUpper = c := by rw [toUpper_def, if_neg hlow]
        rw [hfix, jsUpperChar_of_none ha, hfix]

theorem jsUpperChar_of_alnum (c : Char) (h : isAlnumCode c = true) : jsUpperChar c = [c] := by
  have hn : c.toNat < 128 := by
    simp only [isAlnumCode, isUpperCode, isDigitCode, Bool.or_eq_true, decide_eq_true_eq] at h
    omega
  rw [jsUpperChar_of_none (assocUpper_eq_none_of_ascii c hn), toUpper_of_alnum c h]

theorem flatten_map_eq_self {l : List Char} (h : ∀ c ∈ l, jsUpperChar c = [c]) :
    (l.map jsUpperChar).flatten = l := by
  induction l with
  | nil => rfl
  | cons c t ih =>
      simp only [List.map_cons, List.flatten_cons, h c (List.mem_cons_self c t)]
      rw [ih (fun d hd => h d (List.mem_cons_of_mem c hd))]
      rfl

/-! ## String-level lemmas -/

theorem mk_eq_empty {l : List Char} : (String.mk l = "") ↔ l = [] := by
  constructor
  · intro h
    simpa using congrArg String.data h
  · rintro rfl
    rfl

theorem mk_ne_empty_of_length {l : List Char} (h : 0 < l.length) : String.mk l ≠ "" := by
  intro he
  rw [mk_eq_empty] at he
  subst he
  simp at h

theorem length_mk (l : List Char) : (String.mk l).length = l.length := rfl

theorem cleanIban_eq_upper_strip (x : String) : cleanIban x = upperStr (stripWS x) := rfl

theorem cleanIban_data (x : String) :
    (cleanIban x).data
      = ((x.data.filter (fun c => !jsWhitespace c)).map jsUpperChar).flatten := rfl

theorem cleanIban_stripWS (x : String) : cleanIban (stripWS x) = cleanIban x := by
  unfold cleanIban stripWS
  simp [List.filter_filter]

theorem cleanIban_clean (x : String) : cleanIban (cleanIban x) = cleanIban x := by
  unfold cleanIban
  congr 1
  have hmem : ∀ d ∈ ((x.data.filter (fun c => !jsWhitespace c)).map jsUpperChar).flatten,
      jsWhitespace d = false ∧ jsUpperChar d = [d] := by
    intro d hd
    simp only [List.mem_flatten, List.mem_map] at hd
    obtain ⟨_, ⟨c, hc, rfl⟩, hdc⟩ := hd
    have hcp : jsWhitespace c = false := by
      simpa using (List.mem_filter.mp hc).2
    exact ⟨not_ws_jsUpperChar c hcp d hdc, jsUpperChar_idem c d hdc⟩
  rw [List.filter_eq_self.mpr (fun d hd => by simp [(hmem d hd).1])]
  exact flatten_map_eq_self (fun d hd => (hmem d hd).2)

theorem cleanIban_empty : cleanIban "" = "" := rfl

theorem stripWS_empty_iff {x : String} : stripWS x = "" ↔ cleanIban x = "" := by
  unfold stripWS cleanIban
  rw [mk_eq_empty, mk_eq_empty]
  constructor
  · intro h
    rw [h]
    rfl
  · intro h
    cases hm : x.data.filter (fun c => !jsWhitespace c) with
    | nil => rfl
    | cons c t =>
        rw [hm] at h
        simp only [List.map_cons, List.flatten_cons, List.append_eq_nil] at h
        exact absurd h.1 (jsUpperChar_ne_nil c)

/-! ## Validator-level lemmas -/

theorem matchesIbanFormat_false_of_not_two (s : String) (h : startsTwoUpper s = false) :
    matchesIbanFormat s = false := by
  unfold matchesIbanFormat
  unfold startsTwoUpper at h
  match hd : s.data with
  | [] => rfl
  | [c] => rfl
  | c1 :: c2 :: rest =>
      rw [hd] at h
      simp only [h.symm]
      cases hu : (isUpperCode c1 && isUpperCode c2) <;> simp_all

theorem matchesIbanFormat_all_alnum (s : String) (h : matchesIbanFormat s = true) :
    s.data.all isAlnumCode = true := by
  unfold matchesIbanFormat at h
  match hd : s.data with
  | [] => rw [hd] at h; cases h
  | [c] => rw [hd] at h; cases h
  | c1 :: c2 :: rest =>
      rw [hd] at h
      simp only [Bool.and_eq_true, decide_eq_true_eq] at h
      simp only [List.all_cons, Bool.and_eq_true, isAlnumCode, Bool.or_eq_true]
      exact ⟨Or.inl h.1.1.1, Or.inl h.1.1.2, h.2⟩

theorem validateCore_of_bad_format (m : String) (h : matchesIbanFormat m = false) :
    validateCore m = some false := by
  unfold validateCore
  rw [if_pos (by simp [h])]

theorem validateCore_of_bad_length (m : String) (h : m.length < 15 ∨ 34 < m.length) :
    validateCore m = some false := by
  unfold validateCore
  by_cases hf : matchesIbanFormat m
  · rw [if_neg (by simp [hf]), if_pos h]
  · rw [if_pos (by simp [Bool.not_eq_true] at hf ⊢; exact hf)]

theorem validateCore_eq (m : String) (hf : matchesIbanFormat m = true)
    (h15 : 15 ≤ m.length) (h34 : m.length ≤ 34) :
    validateCore m
      = (jsBigInt (expandList (m.data.drop 4 ++ m.data.take 4))).map (fun n => n % 97 == 1) := by
  unfold validateCore
  rw [if_neg (by simp [hf]), if_neg (by omega)]

theorem validateCore_bounds (m : String) (h : validateCore m = some true) :
    matchesIbanFormat m = true ∧ 15 ≤ m.length ∧ m.length ≤ 34 := by
  by_cases hf : matchesIbanFormat m
  · by_cases hl : m.length < 15 ∨ 34 < m.length
    · rw [validateCore_of_bad_length m hl] at h
      cases h
    · push_neg at hl
      exact ⟨hf, by omega, by omega⟩
  · rw [validateCore_of_bad_format m (by simpa using hf)] at h
    cases h

theorem jsBigInt_expand_eq (l : List Char) (h : l.all isAlnumCode = true) :
    jsBigInt (expandList l)
      = some ((expandList l).foldl (fun a c => 10 * a + (c.toNat - 48)) 0) := by
  unfold jsBigInt
  rw [if_pos]
  simp only [expandList, List.all_eq_true, List.mem_flatten, List.mem_map]
  rintro c ⟨_, ⟨d, hd, rfl⟩, hc⟩
  have := charExpand_all_digits d (by simp only [List.all_eq_true] at h; exact h d hd)
  simp only [List.all_eq_true] at this
  exact this c hc

theorem all_rearranged (l : List Char) (h : l.all isAlnumCode = true) :
    (l.drop 4 ++ l.take 4).all isAlnumCode = true := by
  simp only [List.all_eq_true, List.mem_append] at h ⊢
  rintro c (hc | hc)
  · exact h c (List.mem_of_mem_drop hc)
  · exact h c (List.mem_of_mem_take hc)

theorem validateIban_ne_empty (x : String) (hx : x ≠ "") :
    validateIban x = validateCore (cleanIban x) := by
  unfold validateIban
  rw [if_neg hx]

theorem validateIban_stripWS (x : String) : validateIban (stripWS x) = validateIban x := by
  by_cases hx : x = ""
  · subst hx
    rfl
  · by_cases hs : stripWS x = ""
    · rw [hs, validateIban_ne_empty x hx,
          validateCore_of_bad_format _ (by rw [stripWS_empty_iff.mp hs]; rfl)]
      rfl
    · rw [validateIban_ne_empty _ hs, validateIban_ne_empty x hx, cleanIban_stripWS]

theorem validateIban_clean (x : String) : validateIban (cleanIban x) = validateIban x := by
  by_cases hx : x = ""
  · subst hx
    rfl
  · by_cases hc : cleanIban x = ""
    · rw [hc, validateIban_ne_empty x hx, validateCore_of_bad_format _ (by rw [hc]; rfl)]
      rfl
    · rw [validateIban_ne_empty _ hc, validateIban_ne_empty x hx, cleanIban_clean]

/-- The left fold used to model the value of the decimal numeral agrees
with the standard base-10 interpretation of the digit values. -/
theorem foldl_digits_eq_ofDigits (l : List Char) : ∀ a : Nat,
    l.foldl (fun acc c => 10 * acc + (c.toNat - 48)) a
      = Nat.ofDigits 10 ((l.map (fun c => c.toNat - 48)).reverse) + a * 10 ^ l.length := by
  induction l with
  | nil =>
      intro a
      simp [Nat.ofDigits]
  | cons c t ih =>
      intro a
      simp only [List.foldl_cons, ih, List.map_cons, List.reverse_cons, Nat.ofDigits_append,
        List.length_reverse, List.length_map, List.length_cons, Nat.ofDigits_singleton]
      ring

theorem validateCore_isSome (m : String) : (validateCore m).isSome := by
  by_cases hf : matchesIbanFormat m
  · by_cases hl : m.length < 15 ∨ 34 < m.length
    · rw [validateCore_of_bad_length m hl]
      rfl
    · push_neg at hl
      rw [validateCore_eq m hf (by omega) (by omega),
          jsBigInt_expand_eq _ (all_rearranged _ (matchesIbanFormat_all_alnum m hf))]
      rfl
  · rw [validateCore_of_bad_format m (by simpa using hf)]
    rfl

theorem validateIban_isSome (x : String) : (validateIban x).isSome := by
  by_cases hx : x = ""
  · subst hx
    rfl
  · rw [validateIban_ne_empty x hx]
    exact validateCore_isSome _

theorem getValidationMessage_ne_empty (x : String) (hx : x ≠ "") :
    getValidationMessage x = messageCore (stripWS x) := by
  unfold getValidationMessage
  rw [if_neg hx]

theorem getValidationMessage_isSome (x : String) : (getValidationMessage x).isSome := by
  by_cases hx : x = ""
  · subst hx
    rfl
  · rw [getValidationMessage_ne_empty x hx]
    unfold messageCore
    by_cases h1 : (stripWS x).length < 15
    · rw [if_pos h1]
      rfl
    · rw [if_neg h1]
      by_cases h2 : 34 < (stripWS x).length
      · rw [if_pos h2]
        rfl
      · rw [if_neg h2]
        by_cases h3 : startsTwoUpper (upperStr (stripWS x)) = true
        · rw [if_neg (by simp [h3])]
          simp [validateIban_isSome]
        · rw [if_pos (by simp [Bool.not_eq_true] at h3 ⊢; exact h3)]
          rfl

theorem extract_isSome (x : String) : (extractBankAccountInfo x).isSome := by
  simp only [extractBankAccountInfo]
  obtain ⟨b, hb⟩ := Option.isSome_iff_exists.mp (validateIban_isSome (cleanIban x))
  rw [hb]
  cases b <;> rfl

theorem extract_of_invalid (x : String) (h : validateIban (cleanIban x) = some false) :
    extractBankAccountInfo x
      = some ⟨false, getCountryFromIban (cleanIban x), "", "", "",
              "Invalid IBAN. Cannot extract account information."⟩ := by
  simp only [extractBankAccountInfo]
  rw [h]

theorem clean_nonempty_of_valid (x : String) (hv : validateIban (cleanIban x) = some true) :
    cleanIban x ≠ "" := by
  intro he
  rw [he] at hv
  have h0 : validateIban "" = some false := rfl
  rw [h0] at hv
  cases hv

theorem validateCore_clean_of_valid (x : String) (hv : validateIban (cleanIban x) = some true) :
    validateCore (cleanIban x) = some true := by
  rw [validateIban_ne_empty _ (clean_nonempty_of_valid x hv), cleanIban_clean] at hv
  exact hv

theorem extract_of_fallback (x : String) (hv : validateIban (cleanIban x) = some true)
    (hDE : getCountryFromIban (cleanIban x) ≠ "DE")
    (hFR : getCountryFromIban (cleanIban x) ≠ "FR")
    (hGB : getCountryFromIban (cleanIban x) ≠ "GB") :
    extractBankAccountInfo x
      = some ⟨true, getCountryFromIban (cleanIban x),
              jsSlice (cleanIban x) 4 8, "", strDrop (cleanIban x) 8,
              "Successfully extracted bank account information"⟩
    ∧ jsSlice (cleanIban x) 4 8 ≠ "" ∧ strDrop (cleanIban x) 8 ≠ "" := by
  obtain ⟨hf, h15, h34⟩ := validateCore_bounds _ (validateCore_clean_of_valid x hv)
  have hlen : 15 ≤ (cleanIban x).data.length := h15
  have hbank : jsSlice (cleanIban x) 4 8 ≠ "" := by
    apply mk_ne_empty_of_length
    simp only [List.length_take, List.length_drop]
    omega
  have hacct : strDrop (cleanIban x) 8 ≠ "" := by
    apply mk_ne_empty_of_length
    simp only [List.length_drop]
    omega
  refine ⟨?_, hbank, hacct⟩
  simp only [extractBankAccountInfo]
  rw [hv, if_neg hDE, if_neg hFR, if_neg hGB, if_pos h15]
  dsimp only
  rw [if_pos hbank]

theorem extract_of_mismatch (x : String) (hv : validateIban (cleanIban x) = some true)
    (hcase : (getCountryFromIban (cleanIban x) = "DE" ∧ (cleanIban x).length ≠ 22)
           ∨ (getCountryFromIban (cleanIban x) = "FR" ∧ (cleanIban x).length ≠ 27)
           ∨ (getCountryFromIban (cleanIban x) = "GB" ∧ (cleanIban x).length ≠ 22)) :
    extractBankAccountInfo x
      = some ⟨true, getCountryFromIban (cleanIban x), "", "", "",
              "Partial information extracted due to unknown country format"⟩ := by
  simp only [extractBankAccountInfo]
  rw [hv]
  rcases hcase with ⟨hc, hl⟩ | ⟨hc, hl⟩ | ⟨hc, hl⟩
  · rw [if_pos hc, if_neg hl]
    dsimp only
    rw [if_neg (by simp)]
  · rw [if_neg (by rw [hc]; decide), if_pos hc, if_neg hl]
    dsimp only
    rw [if_neg (by simp)]
  · rw [if_neg (by rw [hc]; decide), if_neg (by rw [hc]; decide), if_pos hc, if_neg hl]
    dsimp only
    rw [if_neg (by simp)]

/-! ## Claim theorems -/

/-- Claim C1: for every normalized input consisting only of characters
in the classes A–Z and 0–9, of length between 15 and 34, starting with
two letters, the checksum engine accepts exactly when the decimal
numeral obtained by moving the first 4 characters to the end and
expanding each letter c to the decimal string of charCode(c) - 55 is
congruent to 1 modulo 97, in exact arbitrary-precision arithmetic. -/
theorem ibanC1 (s : String) (halnum : s.data.all isAlnumCode = true)
    (hlen15 : 15 ≤ s.length) (hlen34 : s.length ≤ 34) (htwo : startsTwoUpper s = true) :
    (validateIban s = some true ↔
      Nat.ofDigits 10
        (((expandList (s.data.drop 4 ++ s.data.take 4)).map (fun c => c.toNat - 48)).reverse)
        % 97 = 1) := by
  have hdata : s.data.length = s.length := rfl
  have hne : s ≠ "" := by
    intro he
    subst he
    exact absurd hlen15 (by decide)
  have halnum' := halnum
  simp only [List.all_eq_true] at halnum'
  have hclean : cleanIban s = s := by
    unfold cleanIban
    have h1 : s.data.filter (fun c => !jsWhitespace c) = s.data :=
      List.filter_eq_self.mpr (fun a ha => by simp [not_ws_of_alnum a (halnum' a ha)])
    rw [h1, flatten_map_eq_self (fun c hc => jsUpperChar_of_alnum c (halnum' c hc))]
  have hformat : matchesIbanFormat s = true := by
    unfold matchesIbanFormat
    unfold startsTwoUpper at htwo
    match hd : s.data with
    | [] => rw [hd] at htwo; cases htwo
    | [c] => rw [hd] at htwo; cases htwo
    | c1 :: c2 :: rest =>
        rw [hd] at htwo halnum
        have hlr : s.data.length = rest.length + 2 := by rw [hd]; simp
        simp only [List.all_cons, Bool.and_eq_true] at halnum
        simp only [Bool.and_eq_true] at htwo ⊢
        refine ⟨⟨⟨htwo.1, htwo.2⟩, ?_⟩, halnum.2.2⟩
        simp only [decide_eq_true_eq]
        omega
  rw [validateIban_ne_empty s hne, hclean,
      validateCore_eq s hformat hlen15 hlen34,
      jsBigInt_expand_eq _ (all_rearranged _ halnum),
      Option.map_some']
  rw [foldl_digits_eq_ofDigits]
  simp [beq_iff_eq]

/-- Witness for C1 at the German canonical example. -/
theorem ibanC1_witness : validateIban "DE89370400440532013000" = some true :=
  (ibanC1 "DE89370400440532013000" (by decide) (by decide) (by decide) (by decide)).mpr
    (by decide)

/-- Claim C2: the three canonical examples are each reported Valid. -/
theorem ibanC2 :
    getValidationMessage "DE89370400440532013000" = some (true, "Valid IBAN")
  ∧ getValidationMessage "FR1420041010050500013M02606" = some (true, "Valid IBAN")
  ∧ getValidationMessage "GB29NWBK60161331926819" = some (true, "Valid IBAN") := by
  decide

/-- Counterexample to C3 as stated: a hyphen is not removed by the
validator (which strips only whitespace), so an input that normalizes
to a valid IBAN is rejected while its normalization is accepted. -/
theorem ibanC3_cex :
    validateIban "DE89-370400440532013000" = some false
  ∧ normalize "DE89-370400440532013000" = "DE89370400440532013000"
  ∧ validateIban (normalize "DE89-370400440532013000") = some true := by
  decide

/-- Claim C3 (amended): the outcome of validate is invariant under the
cleaning the code itself performs, namely whitespace removal and
uppercasing, but not under removal of arbitrary non-alphanumeric
characters. -/
theorem ibanC3 (x : String) :
    validateIban (stripWS x) = validateIban x
  ∧ validateIban (cleanIban x) = validateIban x :=
  ⟨validateIban_stripWS x, validateIban_clean x⟩

/-- Counterexample to C4 as stated: a whitespace-only input normalizes
to the empty string but is reported too short, not Empty. -/
theorem ibanC4_cex :
    getValidationMessage " " = some (false, "IBAN is too short")
  ∧ getValidationMessage " " ≠ some (false, "Please enter an IBAN") := by
  decide

/-- Claim C4 (amended): the Empty reason fires only when the raw input
is literally empty; otherwise the whitespace-stripped string is checked
in the order too-short, too-long, then leading-two-letters only (not the
full pattern); inputs passing all of these defer to the boolean
validator, whose failures surface as the generic Invalid message. -/
theorem ibanC4 :
    getValidationMessage "" = some (false, "Please enter an IBAN")
  ∧ (∀ x, x ≠ "" → (stripWS x).length < 15 →
      getValidationMessage x = some (false, "IBAN is too short"))
  ∧ (∀ x, x ≠ "" → 34 < (stripWS x).length →
      getValidationMessage x = some (false, "IBAN is too long"))
  ∧ (∀ x, x ≠ "" → 15 ≤ (stripWS x).length → (stripWS x).length ≤ 34 →
      startsTwoUpper (upperStr (stripWS x)) = false →
      getValidationMessage x = some (false, "IBAN must start with a country code (2 letters)"))
  ∧ (∀ x, x ≠ "" → 15 ≤ (stripWS x).length → (stripWS x).length ≤ 34 →
      startsTwoUpper (upperStr (stripWS x)) = true →
      getValidationMessage x
        = (validateIban (stripWS x)).map
            (fun ok => if ok then (true, "Valid IBAN") else (false, "Invalid IBAN."))) := by
  refine ⟨rfl, ?_, ?_, ?_, ?_⟩
  · intro x hx h1
    rw [getValidationMessage_ne_empty x hx]
    unfold messageCore
    rw [if_pos h1]
  · intro x hx h2
    rw [getValidationMessage_ne_empty x hx]
    unfold messageCore
    rw [if_neg (by omega), if_pos h2]
  · intro x hx h1 h2 h3
    rw [getValidationMessage_ne_empty x hx]
    unfold messageCore
    rw [if_neg (by omega), if_neg (by omega), if_pos (by simp [h3])]
  · intro x hx h1 h2 h3
    rw [getValidationMessage_ne_empty x hx]
    unfold messageCore
    rw [if_neg (by omega), if_neg (by omega), if_neg (by simp [h3])]

/-- Witness for C4: one concrete input per rule of the precedence. -/
theorem ibanC4_witness :
    getValidationMessage "" = some (false, "Please enter an IBAN")
  ∧ getValidationMessage "AB1" = some (false, "IBAN is too short")
  ∧ getValidationMessage "ABCDEFGHIJKLMNOPQRSTUVWXYZ123456789" = some (false, "IBAN is too long")
  ∧ getValidationMessage "1234567890123456" =
      some (false, "IBAN must start with a country code (2 letters)")
  ∧ getValidationMessage "DE89370400440532013000" = some (true, "Valid IBAN") :=
  ⟨ibanC4.1,
   ibanC4.2.1 "AB1" (by decide) (by decide),
   ibanC4.2.2.1 "ABCDEFGHIJKLMNOPQRSTUVWXYZ123456789" (by decide) (by decide),
   ibanC4.2.2.2.1 "1234567890123456" (by decide) (by decide) (by decide) (by decide),
   by
     have h := ibanC4.2.2.2.2 "DE89370400440532013000" (by decide) (by decide) (by decide)
       (by decide)
     rw [h]
     decide⟩

/-- Counterexample to C5 as stated: on a failing input the country code
field of the result is the first two characters of the input, not the
empty string. -/
theorem ibanC5_cex :
    extractBankAccountInfo "XX123"
      = some ⟨false, "XX", "", "", "", "Invalid IBAN. Cannot extract account information."⟩
  ∧ ("XX" : String) ≠ "" := by
  decide

/-- Claim C5 (amended): on every input failing validation, decompose
returns an Invalid-status result whose bank code, branch code and
account number are all empty (no slicing is performed), while the
country code field carries the first two characters of the cleaned
input. -/
theorem ibanC5 (x : String) (h : validateIban (cleanIban x) = some false) :
    extractBankAccountInfo x
      = some ⟨false, getCountryFromIban (cleanIban x), "", "", "",
              "Invalid IBAN. Cannot extract account information."⟩ :=
  extract_of_invalid x h

/-- Witness for C5 at a structurally invalid input. -/
theorem ibanC5_witness :
    extractBankAccountInfo "AB00"
      = some ⟨false, getCountryFromIban (cleanIban "AB00"), "", "", "",
              "Invalid IBAN. Cannot extract account information."⟩ :=
  ibanC5 "AB00" (by decide)

/-- Counterexample to C6 as stated: a checksum-valid German IBAN of
length 16 (a registry country with mismatched length) yields empty
bank code and account number, not the generic fallback slices. -/
theorem ibanC6_cex :
    validateIban "DE09000000000001" = some true
  ∧ extractBankAccountInfo "DE09000000000001"
      = some ⟨true, "DE", "", "", "", "Partial information extracted due to unknown country format"⟩
  ∧ jsSlice (cleanIban "DE09000000000001") 4 8 = "0000"
  ∧ ("0000" : String) ≠ "" := by
  decide

/-- Claim C6 (amended): for a checksum-valid IBAN whose country code is
absent from the registry (not DE, FR or GB), decompose applies the
generic fallback with non-empty bank code and account number and the
success message; for a registry country whose length mismatches its
layout, all three fields are empty and the partial-information message
is reported instead. -/
theorem ibanC6 :
    (∀ x, validateIban (cleanIban x) = some true →
      getCountryFromIban (cleanIban x) ≠ "DE" →
      getCountryFromIban (cleanIban x) ≠ "FR" →
      getCountryFromIban (cleanIban x) ≠ "GB" →
      extractBankAccountInfo x
        = some ⟨true, getCountryFromIban (cleanIban x),
                jsSlice (cleanIban x) 4 8, "", strDrop (cleanIban x) 8,
                "Successfully extracted bank account information"⟩
      ∧ jsSlice (cleanIban x) 4 8 ≠ "" ∧ strDrop (cleanIban x) 8 ≠ "")
  ∧ (∀ x, validateIban (cleanIban x) = some true →
      ((getCountryFromIban (cleanIban x) = "DE" ∧ (cleanIban x).length ≠ 22)
       ∨ (getCountryFromIban (cleanIban x) = "FR" ∧ (cleanIban x).length ≠ 27)
       ∨ (getCountryFromIban (cleanIban x) = "GB" ∧ (cleanIban x).length ≠ 22)) →
      extractBankAccountInfo x
        = some ⟨true, getCountryFromIban (cleanIban x), "", "", "",
                "Partial information extracted due to unknown country format"⟩) :=
  ⟨fun x hv h1 h2 h3 => extract_of_fallback x hv h1 h2 h3,
   fun x hv hc => extract_of_mismatch x hv hc⟩

/-- Witness for C6: an unknown-country valid IBAN takes the fallback and
a valid German IBAN of length 16 takes the mismatch branch. -/
theorem ibanC6_witness :
    (extractBankAccountInfo "ZZ39000000000001"
      = some ⟨true, getCountryFromIban (cleanIban "ZZ39000000000001"),
              jsSlice (cleanIban "ZZ39000000000001") 4 8, "",
              strDrop (cleanIban "ZZ39000000000001") 8,
              "Successfully extracted bank account information"⟩
      ∧ jsSlice (cleanIban "ZZ39000000000001") 4 8 ≠ ""
      ∧ strDrop (cleanIban "ZZ39000000000001") 8 ≠ "")
  ∧ extractBankAccountInfo "DE09000000000001"
      = some ⟨true, getCountryFromIban (cleanIban "DE09000000000001"), "", "", "",
              "Partial information extracted due to unknown country format"⟩ :=
  ⟨ibanC6.1 "ZZ39000000000001" (by decide) (by decide) (by decide) (by decide),
   ibanC6.2 "DE09000000000001" (by decide) (Or.inl ⟨by decide, by decide⟩)⟩

/-- Claim C7: decompose returns exactly the documented fields for the
German and British canonical examples. -/
theorem ibanC7 :
    extractBankAccountInfo "DE89370400440532013000"
      = some ⟨true, "DE", "37040044", "", "0532013000",
              "Successfully extracted bank account information"⟩
  ∧ extractBankAccountInfo "GB29NWBK60161331926819"
      = some ⟨true, "GB", "NWBK", "601613", "31926819",
              "Successfully extracted bank account information"⟩ := by
  decide

/-- Claim C8: countryOf returns the empty string on inputs of fewer
than two characters and otherwise the first two characters of the
trimmed, uppercased input, with no validation. -/
theorem ibanC8 (x : String) :
    (x.length < 2 → getCountryFromIban x = "")
  ∧ (2 ≤ x.length → getCountryFromIban x = strTake (upperStr (jsTrim x)) 2) := by
  constructor
  · intro h
    unfold getCountryFromIban
    rw [if_pos (Or.inr h)]
  · intro h
    unfold getCountryFromIban
    rw [if_neg]
    rintro (rfl | hlt)
    · exact absurd h (by decide)
    · omega

/-- Witness for C8 at a one-character input and a five-character input
with leading whitespace and lowercase letters. -/
theorem ibanC8_witness :
    getCountryFromIban "a" = "" ∧ getCountryFromIban " de89" = "DE" :=
  ⟨(ibanC8 "a").1 (by decide),
   by
     rw [(ibanC8 " de89").2 (by decide)]
     decide⟩

/-- Claim C9: every core operation is total: the validator, the message
producer and the decomposer return a defined result on every input (the
fallible BigInt conversion, modelled by the Option, is reached only with
an all-digit numeral); normalize and countryOf are total by their types. -/
theorem ibanC9 (x : String) :
    (validateIban x).isSome
  ∧ (getValidationMessage x).isSome
  ∧ (extractBankAccountInfo x).isSome :=
  ⟨validateIban_isSome x, getValidationMessage_isSome x, extract_isSome x⟩

/-- Counterexample to C10 as stated: toUpperCase doubles each sharp s,
so this 14-character input is reported too short by the message path
while the boolean path uppercases it to a 22-character checksum-valid
IBAN and accepts it. -/
theorem ibanC10_cex :
    getValidationMessage "ß88ßßßßßßß0000" = some (false, "IBAN is too short")
  ∧ validateIban "ß88ßßßßßßß0000" = some true
  ∧ (getValidationMessage "ß88ßßßßßßß0000").map Prod.fst
      ≠ validateIban "ß88ßßßßßßß0000" := by
  decide

/-- Claim C10 (amended): the message-producing path and the boolean path
agree on validity for every input whose whitespace-stripped form keeps
its length under toUpperCase (in particular every ASCII input).  They
can disagree otherwise, because the message path measures length before
uppercasing and the boolean path after. -/
theorem ibanC10 (x : String) (hlen : (upperStr (stripWS x)).length = (stripWS x).length) :
    (getValidationMessage x).map Prod.fst = validateIban x := by
  have hcl : (cleanIban x).length = (stripWS x).length := by
    rw [cleanIban_eq_upper_strip]
    exact hlen
  by_cases hx : x = ""
  · subst hx
    decide
  · rw [getValidationMessage_ne_empty x hx, validateIban_ne_empty x hx]
    unfold messageCore
    by_cases h1 : (stripWS x).length < 15
    · rw [if_pos h1,
          validateCore_of_bad_length (cleanIban x) (Or.inl (by omega))]
      rfl
    · rw [if_neg h1]
      by_cases h2 : 34 < (stripWS x).length
      · rw [if_pos h2,
            validateCore_of_bad_length (cleanIban x) (Or.inr (by omega))]
        rfl
      · rw [if_neg h2]
        by_cases h3 : startsTwoUpper (upperStr (stripWS x)) = true
        · rw [if_neg (by simp [h3]), Option.map_map]
          have hfst : (Prod.fst ∘ fun ok : Bool =>
              if ok then ((true : Bool), "Valid IBAN") else (false, "Invalid IBAN.")) = id := by
            funext ok
            cases ok <;> rfl
          rw [hfst, Option.map_id, id_eq, validateIban_stripWS, validateIban_ne_empty x hx]
        · have h3' : startsTwoUpper (upperStr (stripWS x)) = false := by simpa using h3
          rw [if_pos (by simp [h3']),
              validateCore_of_bad_format (cleanIban x)
                (by rw [cleanIban_eq_upper_strip]
                    exact matchesIbanFormat_false_of_not_two _ h3')]
          rfl

/-- Witness for C10 at a spaced ASCII input. -/
theorem ibanC10_witness :
    (getValidationMessage "DE89 3704 0044 0532 0130 00").map Prod.fst
      = validateIban "DE89 3704 0044 0532 0130 00" :=
  ibanC10 "DE89 3704 0044 0532 0130 00" (by decide)

end Iban
